import Mathlib

/-!
Verification of the faceverify similarity-and-decision pipeline.

The repository snapshot ships only the test suite and the example
scripts; the `faceverify` package itself (similarity metrics, decision
makers, configuration, orchestrator) is not present.  Every definition
below is therefore modelled from the specification, faithful to its
words, and checked against the behaviour the unit tests pin down.

Floating-point values are idealised as real numbers (for the metric
formulas, which involve square roots) and as rationals (for the
threshold/decision/configuration layer, which only compares and does
field arithmetic).
-/

/-- Modelled from the spec: the error taxonomy of §7 (InvalidConfig,
InvalidValue, DimensionMismatch, NoFaceDetected, ResourceNotFound);
the `faceverify` exception module is absent from the snapshot. -/
inductive FvError where
  | invalidConfig
  | invalidValue
  | dimensionMismatch
  | noFaceDetected
  | resourceNotFound
deriving DecidableEq, Repr

/-- Modelled from the spec: dot product of two embedding vectors, the
core of `faceverify.similarity.metrics.cosine_similarity` (module absent
from the snapshot).  Trailing elements of the longer vector are ignored,
as `zip`-style iteration would. -/
def dotList : List ℝ → List ℝ → ℝ
  | x :: xs, y :: ys => x * y + dotList xs ys
  | _, _ => 0

/-- Modelled from the spec: the L2 norm of a vector, used by the cosine
metric of `faceverify.similarity.metrics` (module absent). -/
noncomputable def l2norm (a : List ℝ) : ℝ :=
  Real.sqrt (dotList a a)

/-- Modelled from the spec: the raw cosine of the angle between two
vectors, dot(a,b) / (|a| * |b|). -/
noncomputable def rawCos (a b : List ℝ) : ℝ :=
  dotList a b / (l2norm a * l2norm b)

/-- Modelled from the spec: `cosine_similarity` of
`faceverify.similarity.metrics` (module absent).  Returns the pair
(similarity, distance) with similarity = (cos + 1) / 2 and
distance = 1 - cos; a zero vector takes the documented deterministic
fallback (similarity 0, maximal distance 2) instead of dividing by
zero. -/
noncomputable def cosine_similarity (a b : List ℝ) : ℝ × ℝ :=
  if dotList a a = 0 ∨ dotList b b = 0 then (0, 2)
  else ((rawCos a b + 1) / 2, 1 - rawCos a b)

/-- Modelled from the spec: sum of squared componentwise differences,
the radicand of the euclidean metric of `faceverify.similarity.metrics`
(module absent). -/
def sqDiffSum : List ℝ → List ℝ → ℝ
  | x :: xs, y :: ys => (x - y) ^ 2 + sqDiffSum xs ys
  | _, _ => 0

/-- Componentwise difference of two vectors. -/
def listSub : List ℝ → List ℝ → List ℝ
  | x :: xs, y :: ys => (x - y) :: listSub xs ys
  | _, _ => []

/-- Modelled from the spec: `euclidean_distance` of
`faceverify.similarity.metrics` (module absent).  Returns
(similarity, distance) with distance the L2 norm of the difference and
similarity = 1 / (1 + distance). -/
noncomputable def euclidean_distance (a b : List ℝ) : ℝ × ℝ :=
  (1 / (1 + Real.sqrt (sqDiffSum a b)), Real.sqrt (sqDiffSum a b))

/-- Modelled from the spec: the enumerated allowed metric names of the
Similarity Engine (§4.1); the engine module is absent. -/
def allowedMetrics : List String :=
  ["cosine", "euclidean", "manhattan"]

/-- Modelled from the spec: the enumerated detector backends accepted by
`VerifierConfig` (spec §6 plus the backends exercised by the tests:
mtcnn, retinaface, opencv); the config module is absent. -/
def allowedDetectors : List String :=
  ["mtcnn", "retinaface", "opencv"]

/-- Modelled from the spec: the enumerated embedding models accepted by
`VerifierConfig` (facenet, arcface per the tests); the config module is
absent. -/
def allowedModels : List String :=
  ["facenet", "arcface"]

/-- Modelled from the spec: `SimilarityEngine` holds the validated
metric name. -/
structure SimilarityEngine where
  metric : String
deriving DecidableEq, Repr

/-- Modelled from the spec: constructing a `SimilarityEngine` with a
name outside the enumerated set fails with InvalidConfig (§4.1). -/
def mkSimilarityEngine (m : String) : Except FvError SimilarityEngine :=
  if m ∈ allowedMetrics then .ok ⟨m⟩ else .error .invalidConfig

/-- Modelled from the spec: `ThresholdDecisionMaker` of
`faceverify.decision.threshold` (module absent), holding a fixed
threshold in (0,1). -/
structure ThresholdDecisionMaker where
  threshold : ℚ
deriving DecidableEq, Repr

/-- Modelled from the spec: the confidence of the threshold decision
maker — a monotonically increasing, piecewise-linear normalisation of
the margin between similarity and threshold into [0,1], equal to 1/2 at
the threshold boundary. -/
def ThresholdDecisionMaker.confidence (m : ThresholdDecisionMaker) (s : ℚ) : ℚ :=
  if m.threshold ≤ s then
    1 / 2 + (s - m.threshold) / (2 * (1 - m.threshold))
  else
    1 / 2 - (m.threshold - s) / (2 * m.threshold)

/-- Modelled from the spec: `ThresholdDecisionMaker.decide` — verified
is `similarity >= threshold` (boundary inclusive), confidence as above;
the distance argument does not enter the threshold rule. -/
def ThresholdDecisionMaker.decide (m : ThresholdDecisionMaker) (s d : ℚ) : Bool × ℚ :=
  (if m.threshold ≤ s then true else false, m.confidence s)

/-- Modelled from the spec: fallible constructor of
`ThresholdDecisionMaker`; a threshold outside (0,1) is InvalidConfig. -/
def mkThresholdDecisionMaker (t : ℚ) : Except FvError ThresholdDecisionMaker :=
  if 0 < t ∧ t < 1 then .ok ⟨t⟩ else .error .invalidConfig

/-- Modelled from the spec: `AdaptiveDecisionMaker` of
`faceverify.decision.adaptive` (module absent), holding a base
threshold. -/
structure AdaptiveDecisionMaker where
  base_threshold : ℚ
deriving DecidableEq, Repr

/-- Clamp a rational into the closed interval [lo, hi]. -/
def clampQ (lo hi x : ℚ) : ℚ :=
  max lo (min hi x)

/-- Modelled from the spec: the effective threshold of the adaptive
decision maker.  With no quality score it is exactly the base
threshold; with a quality score q in [0,1] the threshold moves up for
low quality and down for high quality, clamped so it never leaves
(0,1). -/
def AdaptiveDecisionMaker.effective_threshold
    (m : AdaptiveDecisionMaker) (q : Option ℚ) : ℚ :=
  match q with
  | none => m.base_threshold
  | some qs => clampQ (1 / 100) (99 / 100) (m.base_threshold + (1 / 2 - qs) * (1 / 5))

/-- Modelled from the spec: `AdaptiveDecisionMaker.decide` — the same
rule as `ThresholdDecisionMaker` but against the adjusted threshold. -/
def AdaptiveDecisionMaker.decide
    (m : AdaptiveDecisionMaker) (s d : ℚ) (q : Option ℚ) : Bool × ℚ :=
  ThresholdDecisionMaker.decide ⟨m.effective_threshold q⟩ s d

/-- Modelled from the spec: fallible constructor of
`AdaptiveDecisionMaker`; a base threshold outside (0,1) is
InvalidConfig. -/
def mkAdaptiveDecisionMaker (t : ℚ) : Except FvError AdaptiveDecisionMaker :=
  if 0 < t ∧ t < 1 then .ok ⟨t⟩ else .error .invalidConfig

/-- Modelled from the spec: `VerifierConfig` of
`faceverify.config.settings` (module absent) — detector backend,
embedding model, similarity metric, threshold. -/
structure VerifierConfig where
  detector_backend : String
  embedding_model : String
  similarity_metric : String
  threshold : ℚ
deriving DecidableEq, Repr

/-- Validity of a configuration: every field in its enumerated allowed
set and the threshold strictly inside (0,1). -/
def VerifierConfig.valid (c : VerifierConfig) : Prop :=
  c.detector_backend ∈ allowedDetectors ∧
  c.embedding_model ∈ allowedModels ∧
  c.similarity_metric ∈ allowedMetrics ∧
  0 < c.threshold ∧ c.threshold < 1

instance (c : VerifierConfig) : Decidable c.valid := by
  unfold VerifierConfig.valid
  infer_instance

/-- Modelled from the spec: the `VerifierConfig` constructor — an
unrecognized field value or an out-of-range threshold fails with
InvalidConfig at construction, never later. -/
def mkVerifierConfig (db em sm : String) (t : ℚ) : Except FvError VerifierConfig :=
  if (VerifierConfig.mk db em sm t).valid
  then .ok ⟨db, em, sm, t⟩ else .error .invalidConfig

/-- Modelled from the spec: the default threshold shipped by
`VerifierConfig()` (the spec's worked examples use 0.65). -/
def defaultThreshold : ℚ := 13 / 20

/-- Modelled from the spec: `VerifierConfig()` with no arguments —
detector mtcnn, model facenet, metric cosine, default threshold. -/
def defaultVerifierConfig : Except FvError VerifierConfig :=
  mkVerifierConfig "mtcnn" "facenet" "cosine" defaultThreshold

/-- Scalar values of the structured key-value text format (YAML): a
scalar is either a string or a number. -/
inductive YamlValue where
  | s (v : String)
  | q (v : ℚ)
deriving DecidableEq, Repr

/-- Modelled from the spec: `VerifierConfig.to_yaml` — persisting the
configuration to the structured key-value text format, one entry per
field. -/
def VerifierConfig.to_yaml (c : VerifierConfig) : List (String × YamlValue) :=
  [("detector_backend", .s c.detector_backend),
   ("embedding_model", .s c.embedding_model),
   ("similarity_metric", .s c.similarity_metric),
   ("threshold", .q c.threshold)]

/-- Modelled from the spec: `VerifierConfig.from_yaml` — restoring a
configuration from the structured key-value text format, re-running
construction-time validation. -/
def VerifierConfig.from_yaml
    (kvs : List (String × YamlValue)) : Except FvError VerifierConfig :=
  match kvs.lookup "detector_backend", kvs.lookup "embedding_model",
      kvs.lookup "similarity_metric", kvs.lookup "threshold" with
  | some (.s db), some (.s em), some (.s sm), some (.q t) =>
      mkVerifierConfig db em sm t
  | _, _, _, _ => .error .invalidValue

/-- Modelled from the spec: the orchestrator (`FaceVerifier`) state the
claims touch — its configuration and its current, settable threshold. -/
structure FaceVerifier where
  config : VerifierConfig
  threshold : ℚ
deriving DecidableEq, Repr

/-- Modelled from the spec: the orchestrator threshold setter — a value
outside (0,1) fails with InvalidConfig and leaves the stored threshold
intact; the returned state is the (possibly updated) orchestrator and
the returned option the error, if any. -/
def FaceVerifier.setThreshold
    (v : FaceVerifier) (t : ℚ) : FaceVerifier × Option FvError :=
  if 0 < t ∧ t < 1 then ({ v with threshold := t }, none)
  else (v, some .invalidConfig)

/-- Modelled from the spec: the human-readable name an error surfaces
as in `metadata.error` of a degraded batch entry. -/
def FvError.message : FvError → String
  | .invalidConfig => "InvalidConfig"
  | .invalidValue => "InvalidValue"
  | .dimensionMismatch => "DimensionMismatch"
  | .noFaceDetected => "NoFaceDetected"
  | .resourceNotFound => "ResourceNotFound"

/-- Modelled from the spec: the `VerificationResult` fields the batch
claims touch — verdict, confidence, similarity, distance, threshold and
the optional `metadata.error` string of a degraded entry. -/
structure VerificationResult where
  verified : Bool
  confidence : ℚ
  similarity : ℚ
  distance : ℚ
  threshold : ℚ
  error : Option String
deriving DecidableEq, Repr

/-- Modelled from the spec: one `verify` call of the orchestrator over
abstract collaborators.  `emb` stands for the detection-plus-embedding
stage (returning an embedding or the stage's failure: missing file, no
face, unreadable image); `cmp` is the similarity engine.  A failing
stage is captured into the result (metadata.error set, verified false)
instead of raising, as the batch context requires. -/
def verifyPair (emb : String → Except FvError (List ℚ))
    (cmp : List ℚ → List ℚ → ℚ × ℚ) (t : ℚ)
    (p : String × String) : VerificationResult :=
  match emb p.1, emb p.2 with
  | .ok e1, .ok e2 =>
      let sd := cmp e1 e2
      let vc := ThresholdDecisionMaker.decide ⟨t⟩ sd.1 sd.2
      ⟨vc.1, vc.2, sd.1, sd.2, t, none⟩
  | .error e, _ => ⟨false, 0, 0, 0, t, some e.message⟩
  | .ok _, .error e => ⟨false, 0, 0, 0, t, some e.message⟩

/-- Modelled from the spec: `verify_batch` — every pair processed
independently, one result per input pair, in order. -/
def verify_batch (emb : String → Except FvError (List ℚ))
    (cmp : List ℚ → List ℚ → ℚ × ℚ) (t : ℚ)
    (pairs : List (String × String)) : List VerificationResult :=
  pairs.map (verifyPair emb cmp t)

/-- A concrete orchestrator state used to instantiate the theorems. -/
def demoVerifier : FaceVerifier :=
  ⟨⟨"mtcnn", "facenet", "cosine", 13 / 20⟩, 13 / 20⟩

/-- A concrete embedding collaborator: every path resolves to a fixed
embedding except `missing.jpg`, which fails with ResourceNotFound. -/
def demoEmb (path : String) : Except FvError (List ℚ) :=
  if path = "missing.jpg" then .error .resourceNotFound else .ok [1, 0]

/-- A concrete similarity collaborator with a fixed score. -/
def demoCmp (a b : List ℚ) : ℚ × ℚ :=
  (7 / 10, 3 / 10)

/-- A concrete batch: one good pair, one pair with a missing image. -/
def demoPairs : List (String × String) :=
  [("a.jpg", "b.jpg"), ("a.jpg", "missing.jpg")]

/-- C2: for every ThresholdDecisionMaker with threshold t in (0,1) and
similarity s in [0,1], `decide` returns verified = (s >= t), and the
boundary is inclusive: similarity exactly equal to the threshold
verifies. -/
theorem threshold_decide_boundary_inclusive (t s d : ℚ)
    (ht0 : 0 < t) (ht1 : t < 1) (hs0 : 0 ≤ s) (hs1 : s ≤ 1) :
    ((ThresholdDecisionMaker.decide ⟨t⟩ s d).1 = true ↔ t ≤ s) ∧
    (ThresholdDecisionMaker.decide ⟨t⟩ t d).1 = true := by
  constructor
  · simp [ThresholdDecisionMaker.decide]
  · simp [ThresholdDecisionMaker.decide]

theorem threshold_decide_boundary_inclusive_witness :
    ((0:ℚ) < 13 / 20 ∧ (13:ℚ) / 20 < 1 ∧ (0:ℚ) ≤ 13 / 20 ∧ (13:ℚ) / 20 ≤ 1) ∧
    (ThresholdDecisionMaker.decide ⟨13 / 20⟩ (13 / 20) (7 / 20)).1 = true := by
  refine ⟨⟨by norm_num, by norm_num, by norm_num, by norm_num⟩, ?_⟩
  exact (threshold_decide_boundary_inclusive (13 / 20) (13 / 20) (7 / 20)
    (by norm_num) (by norm_num) (by norm_num) (by norm_num)).2

/-- C3: for a fixed threshold in (0,1), the confidence returned by
`decide` is strictly increasing in similarity on [0,1], is above 1/2
when similarity is above the threshold and below 1/2 when similarity is
below the threshold. -/
theorem threshold_confidence_strict_mono (t s1 s2 d1 d2 : ℚ)
    (ht0 : 0 < t) (ht1 : t < 1)
    (h10 : 0 ≤ s1) (h11 : s1 ≤ 1) (h20 : 0 ≤ s2) (h21 : s2 ≤ 1) :
    (s1 < s2 →
      (ThresholdDecisionMaker.decide ⟨t⟩ s1 d1).2 <
        (ThresholdDecisionMaker.decide ⟨t⟩ s2 d2).2) ∧
    (t < s1 → 1 / 2 < (ThresholdDecisionMaker.decide ⟨t⟩ s1 d1).2) ∧
    (s1 < t → (ThresholdDecisionMaker.decide ⟨t⟩ s1 d1).2 < 1 / 2) := by
  have hden1 : (0:ℚ) < 2 * (1 - t) := by linarith
  have hden2 : (0:ℚ) < 2 * t := by linarith
  refine ⟨?_, ?_, ?_⟩
  · intro h12
    simp only [ThresholdDecisionMaker.decide, ThresholdDecisionMaker.confidence]
    rcases le_or_lt t s1 with hts1 | hts1 <;> rcases le_or_lt t s2 with hts2 | hts2
    · rw [if_pos hts1, if_pos hts2]
      have := (div_lt_div_iff_of_pos_right hden1).mpr (show s1 - t < s2 - t by linarith)
      linarith
    · linarith
    · rw [if_neg (not_le.mpr hts1), if_pos hts2]
      have ha : 0 < (t - s1) / (2 * t) := div_pos (by linarith) hden2
      have hb : 0 ≤ (s2 - t) / (2 * (1 - t)) := div_nonneg (by linarith) (le_of_lt hden1)
      linarith
    · rw [if_neg (not_le.mpr hts1), if_neg (not_le.mpr hts2)]
      have := (div_lt_div_iff_of_pos_right hden2).mpr (show t - s2 < t - s1 by linarith)
      linarith
  · intro hlt
    simp only [ThresholdDecisionMaker.decide, ThresholdDecisionMaker.confidence]
    rw [if_pos (le_of_lt hlt)]
    have : 0 < (s1 - t) / (2 * (1 - t)) := div_pos (by linarith) hden1
    linarith
  · intro hlt
    simp only [ThresholdDecisionMaker.decide, ThresholdDecisionMaker.confidence]
    rw [if_neg (not_le.mpr hlt)]
    have : 0 < (t - s1) / (2 * t) := div_pos (by linarith) hden2
    linarith

theorem threshold_confidence_strict_mono_witness :
    ((0:ℚ) < 13 / 20 ∧ (13:ℚ) / 20 < 1 ∧ (0:ℚ) ≤ 1 / 2 ∧ (1:ℚ) / 2 ≤ 1 ∧
      (0:ℚ) ≤ 9 / 10 ∧ (9:ℚ) / 10 ≤ 1 ∧ (1:ℚ) / 2 < 9 / 10) ∧
    (ThresholdDecisionMaker.decide ⟨13 / 20⟩ (1 / 2) (1 / 2)).2 <
      (ThresholdDecisionMaker.decide ⟨13 / 20⟩ (9 / 10) (1 / 10)).2 := by
  refine ⟨⟨by norm_num, by norm_num, by norm_num, by norm_num,
    by norm_num, by norm_num, by norm_num⟩, ?_⟩
  exact (threshold_confidence_strict_mono (13 / 20) (1 / 2) (9 / 10) (1 / 2) (1 / 10)
    (by norm_num) (by norm_num) (by norm_num) (by norm_num)
    (by norm_num) (by norm_num)).1 (by norm_num)

/-- C4: with quality_score omitted, AdaptiveDecisionMaker's decision on
any valid inputs is exactly ThresholdDecisionMaker's decision with the
same base threshold. -/
theorem adaptive_decide_degenerate (t s d : ℚ)
    (ht0 : 0 < t) (ht1 : t < 1) (hs0 : 0 ≤ s) (hs1 : s ≤ 1) (hd : 0 ≤ d) :
    AdaptiveDecisionMaker.decide ⟨t⟩ s d none =
      ThresholdDecisionMaker.decide ⟨t⟩ s d := rfl

theorem adaptive_decide_degenerate_witness :
    ((0:ℚ) < 13 / 20 ∧ (13:ℚ) / 20 < 1 ∧ (0:ℚ) ≤ 7 / 10 ∧
      (7:ℚ) / 10 ≤ 1 ∧ (0:ℚ) ≤ 3 / 10) ∧
    AdaptiveDecisionMaker.decide ⟨13 / 20⟩ (7 / 10) (3 / 10) none =
      ThresholdDecisionMaker.decide ⟨13 / 20⟩ (7 / 10) (3 / 10) := by
  refine ⟨⟨by norm_num, by norm_num, by norm_num, by norm_num, by norm_num⟩, ?_⟩
  exact adaptive_decide_degenerate (13 / 20) (7 / 10) (3 / 10)
    (by norm_num) (by norm_num) (by norm_num) (by norm_num) (by norm_num)

/-- C7: setting the orchestrator threshold to a value inside (0,1)
updates it to exactly that value; a value outside (0,1) fails with
InvalidConfig and leaves the stored threshold unchanged. -/
theorem setThreshold_no_partial_mutation (v : FaceVerifier) (t : ℚ) :
    (0 < t ∧ t < 1 →
      v.setThreshold t = ({ v with threshold := t }, none) ∧
      (v.setThreshold t).1.threshold = t) ∧
    (¬(0 < t ∧ t < 1) →
      v.setThreshold t = (v, some .invalidConfig) ∧
      (v.setThreshold t).1.threshold = v.threshold) := by
  constructor
  · intro h
    rw [FaceVerifier.setThreshold, if_pos h]
    exact ⟨rfl, rfl⟩
  · intro h
    rw [FaceVerifier.setThreshold, if_neg h]
    exact ⟨rfl, rfl⟩

theorem setThreshold_no_partial_mutation_witness :
    ((0:ℚ) < 4 / 5 ∧ (4:ℚ) / 5 < 1 ∧ ¬((0:ℚ) < 3 / 2 ∧ (3:ℚ) / 2 < 1)) ∧
    demoVerifier.setThreshold (4 / 5) =
      ({ demoVerifier with threshold := 4 / 5 }, none) ∧
    demoVerifier.setThreshold (3 / 2) = (demoVerifier, some .invalidConfig) ∧
    (demoVerifier.setThreshold (3 / 2)).1.threshold = demoVerifier.threshold := by
  refine ⟨⟨by norm_num, by norm_num, by norm_num⟩, ?_, ?_, ?_⟩
  · exact ((setThreshold_no_partial_mutation demoVerifier (4 / 5)).1
      ⟨by norm_num, by norm_num⟩).1
  · exact ((setThreshold_no_partial_mutation demoVerifier (3 / 2)).2
      (by norm_num)).1
  · exact ((setThreshold_no_partial_mutation demoVerifier (3 / 2)).2
      (by norm_num)).2

/-- C8: an unrecognized metric name for the SimilarityEngine, an
unrecognized detector backend, embedding model or similarity metric for
VerifierConfig, or a threshold outside (0,1) for a decision maker, all
fail at construction with InvalidConfig; no instance is produced. -/
theorem invalid_construction_fails (m db em sm : String) (t u : ℚ) :
    (m ∉ allowedMetrics → mkSimilarityEngine m = .error .invalidConfig) ∧
    (db ∉ allowedDetectors ∨ em ∉ allowedModels ∨ sm ∉ allowedMetrics ∨
        ¬(0 < t ∧ t < 1) →
      mkVerifierConfig db em sm t = .error .invalidConfig) ∧
    (¬(0 < u ∧ u < 1) →
      mkThresholdDecisionMaker u = .error .invalidConfig ∧
      mkAdaptiveDecisionMaker u = .error .invalidConfig) := by
  refine ⟨?_, ?_, ?_⟩
  · intro h
    rw [mkSimilarityEngine, if_neg h]
  · intro h
    rw [mkVerifierConfig, if_neg ?_]
    unfold VerifierConfig.valid
    simp only []
    tauto
  · intro h
    exact ⟨by rw [mkThresholdDecisionMaker, if_neg h],
      by rw [mkAdaptiveDecisionMaker, if_neg h]⟩

theorem invalid_construction_fails_witness :
    ("invalid" ∉ allowedMetrics ∧ "invalid" ∉ allowedDetectors ∧
      ¬((0:ℚ) < 3 / 2 ∧ (3:ℚ) / 2 < 1)) ∧
    mkSimilarityEngine "invalid" = .error .invalidConfig ∧
    mkVerifierConfig "invalid" "facenet" "cosine" (13 / 20) =
      .error .invalidConfig ∧
    mkThresholdDecisionMaker (3 / 2) = .error .invalidConfig := by
  refine ⟨⟨by decide, by decide, by norm_num⟩, ?_, ?_, ?_⟩
  · exact (invalid_construction_fails "invalid" "invalid" "facenet" "cosine"
      (13 / 20) (3 / 2)).1 (by decide)
  · exact (invalid_construction_fails "x" "invalid" "facenet" "cosine"
      (13 / 20) (3 / 2)).2.1 (Or.inl (by decide))
  · exact ((invalid_construction_fails "x" "invalid" "facenet" "cosine"
      (13 / 20) (3 / 2)).2.2 (by norm_num)).1

/-- C10: constructing a VerifierConfig with no arguments succeeds and
yields detector mtcnn, model facenet, metric cosine, and a present
default threshold that itself lies strictly inside (0,1). -/
theorem default_config_spec :
    defaultVerifierConfig =
      .ok ⟨"mtcnn", "facenet", "cosine", defaultThreshold⟩ ∧
    0 < defaultThreshold ∧ defaultThreshold < 1 := by
  refine ⟨?_, by norm_num [defaultThreshold], by norm_num [defaultThreshold]⟩
  rw [defaultVerifierConfig, mkVerifierConfig,
    if_pos ⟨by decide, by decide, by decide,
      by norm_num [defaultThreshold], by norm_num [defaultThreshold]⟩]

/-- C9: persisting a valid VerifierConfig to the structured key-value
text format and restoring it yields a config equal field-for-field to
the original; the round trip is lossless. -/
theorem config_yaml_roundtrip (c : VerifierConfig) (h : c.valid) :
    VerifierConfig.from_yaml c.to_yaml = .ok c := by
  rw [VerifierConfig.to_yaml, VerifierConfig.from_yaml]
  simp [List.lookup]
  rw [mkVerifierConfig, if_pos h]

theorem config_yaml_roundtrip_witness :
    (VerifierConfig.mk "retinaface" "arcface" "euclidean" (7 / 10)).valid ∧
    VerifierConfig.from_yaml
        (VerifierConfig.mk "retinaface" "arcface" "euclidean" (7 / 10)).to_yaml =
      .ok (VerifierConfig.mk "retinaface" "arcface" "euclidean" (7 / 10)) := by
  have h : (VerifierConfig.mk "retinaface" "arcface" "euclidean" (7 / 10)).valid :=
    ⟨by decide, by decide, by decide, by norm_num, by norm_num⟩
  exact ⟨h, config_yaml_roundtrip (VerifierConfig.mk "retinaface" "arcface" "euclidean" (7 / 10)) h⟩

/-- C6: verify_batch processes each pair independently — the output has
one result per input pair in order, each result is the independent
verification of its own pair, a pair whose detection or embedding stage
fails yields a result with metadata.error set and verified false
without aborting the batch, and a pair whose stages succeed yields a
normal result with no error. -/
theorem verify_batch_isolates_failures
    (emb : String → Except FvError (List ℚ)) (cmp : List ℚ → List ℚ → ℚ × ℚ)
    (t : ℚ) (pairs : List (String × String)) :
    (verify_batch emb cmp t pairs).length = pairs.length ∧
    (∀ i : ℕ, (verify_batch emb cmp t pairs)[i]? =
      (pairs[i]?).map (verifyPair emb cmp t)) ∧
    (∀ p : String × String,
      ((∃ e, emb p.1 = .error e) ∨ (∃ e, emb p.2 = .error e) →
        (verifyPair emb cmp t p).error.isSome ∧
        (verifyPair emb cmp t p).verified = false) ∧
      (∀ e1 e2, emb p.1 = .ok e1 → emb p.2 = .ok e2 →
        (verifyPair emb cmp t p).error = none)) := by
  refine ⟨by simp [verify_batch], ?_, ?_⟩
  · intro i
    simp [verify_batch]
  · intro p
    constructor
    · rintro (⟨e, he⟩ | ⟨e, he⟩)
      · simp [verifyPair, he]
      · cases h1 : emb p.1 with
        | ok e1 => simp [verifyPair, h1, he]
        | error e1 => simp [verifyPair, h1]
    · intro e1 e2 h1 h2
      simp [verifyPair, h1, h2]

theorem verify_batch_isolates_failures_witness :
    (demoEmb "missing.jpg" = .error .resourceNotFound ∧
      demoEmb "a.jpg" = .ok [1, 0] ∧ demoEmb "b.jpg" = .ok [1, 0]) ∧
    (verify_batch demoEmb demoCmp (13 / 20) demoPairs).length = 2 ∧
    (verify_batch demoEmb demoCmp (13 / 20) demoPairs)[1]? =
      some (verifyPair demoEmb demoCmp (13 / 20) ("a.jpg", "missing.jpg")) ∧
    (verifyPair demoEmb demoCmp (13 / 20) ("a.jpg", "missing.jpg")).error.isSome = true ∧
    (verifyPair demoEmb demoCmp (13 / 20) ("a.jpg", "missing.jpg")).verified = false ∧
    (verifyPair demoEmb demoCmp (13 / 20) ("a.jpg", "b.jpg")).error = none := by
  obtain ⟨hlen, hget, hp⟩ :=
    verify_batch_isolates_failures demoEmb demoCmp (13 / 20) demoPairs
  refine ⟨⟨rfl, rfl, rfl⟩, hlen, ?_, ?_, ?_, ?_⟩
  · rw [hget 1]; rfl
  · exact ((hp ("a.jpg", "missing.jpg")).1 (Or.inr ⟨.resourceNotFound, rfl⟩)).1
  · exact ((hp ("a.jpg", "missing.jpg")).1 (Or.inr ⟨.resourceNotFound, rfl⟩)).2
  · exact (hp ("a.jpg", "b.jpg")).2 [1, 0] [1, 0] rfl rfl

theorem dotList_self_nonneg (a : List ℝ) : 0 ≤ dotList a a := by
  induction a with
  | nil => simp [dotList]
  | cons x xs ih =>
    have hx := mul_self_nonneg x
    simp only [dotList]
    linarith

theorem dotList_map_neg (a b : List ℝ) :
    dotList a (b.map (fun x => -x)) = -(dotList a b) := by
  induction a generalizing b with
  | nil => cases b <;> simp [dotList]
  | cons x xs ih =>
    cases b with
    | nil => simp [dotList]
    | cons y ys =>
      simp only [List.map, dotList, ih]
      ring

theorem dotList_self_map_neg (a : List ℝ) :
    dotList (a.map (fun x => -x)) (a.map (fun x => -x)) = dotList a a := by
  induction a with
  | nil => simp [dotList]
  | cons x xs ih =>
    simp only [List.map, dotList, ih]
    ring

theorem l2norm_sq (a : List ℝ) : l2norm a * l2norm a = dotList a a :=
  Real.mul_self_sqrt (dotList_self_nonneg a)

theorem l2norm_map_neg (a : List ℝ) :
    l2norm (a.map (fun x => -x)) = l2norm a := by
  rw [l2norm, l2norm, dotList_self_map_neg]

theorem rawCos_self (a : List ℝ) (ha : dotList a a ≠ 0) :
    rawCos a a = 1 := by
  rw [rawCos, l2norm_sq, div_self ha]

theorem rawCos_map_neg (a : List ℝ) (ha : dotList a a ≠ 0) :
    rawCos a (a.map (fun x => -x)) = -1 := by
  rw [rawCos, dotList_map_neg, l2norm_map_neg, l2norm_sq, neg_div, div_self ha]

/-- C1: for nonzero vectors of equal positive dimension,
cosine_similarity returns similarity = (cos + 1) / 2 and
distance = 1 - cos for cos the raw cosine of the angle (the two on
different scales: whenever cos is not 1, distance differs from
1 - similarity); identical vectors yield (1, 0), exactly opposite
vectors yield (0, 2), and orthogonal vectors yield (1/2, 1). -/
theorem cosine_similarity_spec (a b : List ℝ)
    (hlen : a.length = b.length) (hpos : 0 < a.length)
    (ha : dotList a a ≠ 0) (hb : dotList b b ≠ 0) :
    cosine_similarity a b = ((rawCos a b + 1) / 2, 1 - rawCos a b) ∧
    (rawCos a b ≠ 1 →
      (cosine_similarity a b).2 ≠ 1 - (cosine_similarity a b).1) ∧
    cosine_similarity a a = (1, 0) ∧
    cosine_similarity a (a.map (fun x => -x)) = (0, 2) ∧
    (dotList a b = 0 → cosine_similarity a b = (1 / 2, 1)) := by
  have hmain : cosine_similarity a b = ((rawCos a b + 1) / 2, 1 - rawCos a b) := by
    rw [cosine_similarity, if_neg (not_or.mpr ⟨ha, hb⟩)]
  refine ⟨hmain, ?_, ?_, ?_, ?_⟩
  · intro hc heq
    rw [hmain] at heq
    simp only [Prod.fst, Prod.snd] at heq
    exact hc (by linarith)
  · rw [cosine_similarity, if_neg (not_or.mpr ⟨ha, ha⟩), rawCos_self a ha]
    norm_num
  · have hna : dotList (a.map (fun x => -x)) (a.map (fun x => -x)) ≠ 0 := by
      rw [dotList_self_map_neg]; exact ha
    rw [cosine_similarity, if_neg (not_or.mpr ⟨ha, hna⟩), rawCos_map_neg a ha]
    norm_num
  · intro h0
    rw [cosine_similarity, if_neg (not_or.mpr ⟨ha, hb⟩), rawCos, h0, zero_div]
    norm_num

theorem cosine_similarity_spec_witness :
    (([1, 0] : List ℝ).length = ([0, 1] : List ℝ).length ∧
      0 < ([1, 0] : List ℝ).length ∧
      dotList ([1, 0] : List ℝ) [1, 0] ≠ 0 ∧
      dotList ([0, 1] : List ℝ) [0, 1] ≠ 0 ∧
      dotList ([1, 0] : List ℝ) [0, 1] = 0) ∧
    cosine_similarity ([1, 0] : List ℝ) [0, 1] = (1 / 2, 1) ∧
    cosine_similarity ([1, 0] : List ℝ) [1, 0] = (1, 0) := by
  have h1 : dotList ([1, 0] : List ℝ) [1, 0] ≠ 0 := by norm_num [dotList]
  have h2 : dotList ([0, 1] : List ℝ) [0, 1] ≠ 0 := by norm_num [dotList]
  have h0 : dotList ([1, 0] : List ℝ) [0, 1] = 0 := by norm_num [dotList]
  refine ⟨⟨rfl, by norm_num, h1, h2, h0⟩, ?_, ?_⟩
  · exact (cosine_similarity_spec [1, 0] [0, 1] rfl (by norm_num) h1 h2).2.2.2.2 h0
  · exact (cosine_similarity_spec [1, 0] [0, 1] rfl (by norm_num) h1 h2).2.2.1

theorem sqDiffSum_eq_dot_sub (a b : List ℝ) :
    sqDiffSum a b = dotList (listSub a b) (listSub a b) := by
  induction a generalizing b with
  | nil => cases b <;> simp [sqDiffSum, listSub, dotList]
  | cons x xs ih =>
    cases b with
    | nil => simp [sqDiffSum, listSub, dotList]
    | cons y ys =>
      simp only [sqDiffSum, listSub, dotList, ih]
      ring

theorem sqDiffSum_self (a : List ℝ) : sqDiffSum a a = 0 := by
  induction a with
  | nil => simp [sqDiffSum]
  | cons x xs ih => simp [sqDiffSum, ih]

/-- C5: for vectors of equal positive dimension, euclidean_distance
returns distance = the L2 norm of the componentwise difference and
similarity = 1 / (1 + distance); the vectors (0,0) and (3,4) yield
distance 5 and similarity 1/6, and identical vectors yield distance 0
and similarity 1. -/
theorem euclidean_distance_spec (a b : List ℝ)
    (hlen : a.length = b.length) (hpos : 0 < a.length) :
    euclidean_distance a b =
      (1 / (1 + l2norm (listSub a b)), l2norm (listSub a b)) ∧
    euclidean_distance ([0, 0] : List ℝ) [3, 4] = (1 / 6, 5) ∧
    euclidean_distance a a = (1, 0) := by
  refine ⟨?_, ?_, ?_⟩
  · rw [euclidean_distance, l2norm, sqDiffSum_eq_dot_sub]
  · have h25 : sqDiffSum ([0, 0] : List ℝ) [3, 4] = 25 := by norm_num [sqDiffSum]
    have h5 : Real.sqrt 25 = 5 := by
      rw [show (25:ℝ) = 5 ^ 2 by norm_num, Real.sqrt_sq (by norm_num : (0:ℝ) ≤ 5)]
    rw [euclidean_distance, h25, h5]
    norm_num
  · rw [euclidean_distance, sqDiffSum_self, Real.sqrt_zero]
    norm_num

theorem euclidean_distance_spec_witness :
    (([0, 0] : List ℝ).length = ([3, 4] : List ℝ).length ∧
      0 < ([0, 0] : List ℝ).length) ∧
    euclidean_distance ([0, 0] : List ℝ) [3, 4] = (1 / 6, 5) ∧
    euclidean_distance ([0, 0] : List ℝ) [0, 0] = (1, 0) := by
  refine ⟨⟨rfl, by norm_num⟩, ?_, ?_⟩
  · exact (euclidean_distance_spec [0, 0] [3, 4] rfl (by norm_num)).2.1
  · exact (euclidean_distance_spec [0, 0] [3, 4] rfl (by norm_num)).2.2
